import Mathlib

/-!
Verification of the PHIL analytics classification and hierarchy-building core
(`phil_analytics/excel_data_processor.py` and `phil_analytics/scrubber.py`).

The Python source works on a pandas table whose cells are all strings.  We
model a table as a `List InputRow` where `InputRow` carries the named string
columns used by the code under verification (plus the pandas integer index,
used by the scrubber when dropping rows).  Amount strings are parsed into
exact decimals (`Dec`) by `parseDecimal`, which models Python's `float(...)`
on plain signed decimal literals (the only shape of amount the pipeline
produces); a parse failure models the `ValueError` branch.
-/

/-- Numeric value of a list of decimal digit characters. -/
def digitsVal (s : List Char) : Nat :=
  s.foldl (fun n c => n * 10 + (c.toNat - 48)) 0

/-!
String primitives.  Lean's own `String.pyStrip`/`String.pySplit`/... are
defined through `Substring` byte positions and do not reduce inside the
kernel, so concrete instances could not be checked by `decide`.  The
functions below implement the Python string operations the source uses
(`strip`, `split`, `replace`, `startswith`, slicing) by structural
recursion over the character list, so every definition in this file
evaluates. -/

/-- Python `s.strip()`. -/
def String.pyStrip (s : String) : String :=
  String.mk (((s.toList.dropWhile Char.isWhitespace).reverse.dropWhile
    Char.isWhitespace).reverse)

/-- Python `s.startswith(p)`. -/
def String.pyStartsWith (s p : String) : Bool :=
  p.toList.isPrefixOf s.toList

/-- Python `s[n:]`. -/
def String.pyDrop (s : String) (n : Nat) : String :=
  String.mk (s.toList.drop n)

/-- Fuel-driven worker for `pySplit`: scan left to right, emitting the
accumulated piece at each non-overlapping occurrence of the separator.
The fuel starts at the text length and each step removes at least one
character, so the zero-fuel arm is never reached for a non-empty
separator. -/
def splitChAux (sep : List Char) : Nat → List Char → List Char → List (List Char)
  | 0, _, acc => [acc.reverse]
  | fuel + 1, l, acc =>
      match l with
      | [] => [acc.reverse]
      | c :: cs =>
          if sep.isPrefixOf (c :: cs) then
            acc.reverse :: splitChAux sep fuel (List.drop sep.length (c :: cs)) []
          else splitChAux sep fuel cs (c :: acc)

/-- Python `s.split(sep)` for a non-empty separator (an empty separator
returns `[s]`; Python raises there and the source never passes one). -/
def String.pySplit (s sep : String) : List String :=
  if sep.toList.isEmpty then [s]
  else (splitChAux sep.toList s.toList.length s.toList []).map String.mk

/-- Fuel-driven worker for `pyReplace`. -/
def replaceChAux (pat rep : List Char) : Nat → List Char → List Char
  | 0, l => l
  | fuel + 1, l =>
      match l with
      | [] => []
      | c :: cs =>
          if pat.isPrefixOf (c :: cs) then
            rep ++ replaceChAux pat rep fuel (List.drop pat.length (c :: cs))
          else c :: replaceChAux pat rep fuel cs

/-- Python `s.replace(pat, rep)` for a non-empty pattern. -/
def String.pyReplace (s pat rep : String) : String :=
  if pat.toList.isEmpty then s
  else String.mk (replaceChAux pat.toList rep.toList s.toList.length s.toList)

/-- Python `"sep".join(parts)` (replacement for `String.intercalate`). -/
def pyJoin (sep : String) : List String → String
  | [] => ""
  | [x] => x
  | x :: xs => x ++ sep ++ pyJoin sep xs

/-- Python `c in s` for a single character. -/
def String.pyContainsChar (s : String) (c : Char) : Bool :=
  s.toList.contains c

/-- Python's `pat in s` substring test: `s.pySplit pat` has at least two
pieces exactly when the (non-empty) pattern occurs in `s`. -/
def strContains (s pat : String) : Bool :=
  2 ≤ (s.pySplit pat).length

/-- An exact decimal number `num / 10 ^ exp`.  The pipeline's amount cells
are decimal strings, so the Python floats built from them denote these
values exactly; rationals are avoided because `Rat`'s arithmetic is
irreducible in the kernel and concrete instances could not be evaluated. -/
structure Dec where
  num : Int
  exp : Nat
deriving DecidableEq

/-- Numeric value equality of two decimals (cross-multiplied), i.e. Python
`float` equality. -/
def Dec.numEq (a b : Dec) : Bool :=
  a.num * (10 : Int) ^ b.exp == b.num * (10 : Int) ^ a.exp

/-- Exact sum of two decimals (Python float addition is exact on the
two-decimal amounts the scrubber adds). -/
def Dec.add (a b : Dec) : Dec :=
  ⟨a.num * (10 : Int) ^ b.exp + b.num * (10 : Int) ^ a.exp, a.exp + b.exp⟩

/-- Python `round(x, 2)` expressed in cents: the nearest integer to
`100 * x`, halves up (the source compares two-decimal amounts, where the
half-even/half-up distinction cannot arise). -/
def Dec.roundCents (a : Dec) : Int :=
  Int.fdiv (2 * (a.num * 100) + (10 : Int) ^ a.exp) (2 * (10 : Int) ^ a.exp)

/-- Python `float(...)` on a plain signed decimal literal (optional sign,
digits, optional single decimal point): `some` of the value, `none` when the
conversion would raise `ValueError`. -/
def parseDecimal (s : String) : Option Dec :=
  let t := s.pyStrip
  let sgn : Int := if t.pyStartsWith "-" then -1 else 1
  let body := if t.pyStartsWith "-" || t.pyStartsWith "+" then t.pyDrop 1 else t
  match body.pySplit "." with
  | [intPart] =>
      if intPart != "" && intPart.toList.all Char.isDigit then
        some ⟨sgn * (digitsVal intPart.toList : Int), 0⟩
      else none
  | [intPart, fracPart] =>
      if (intPart != "" || fracPart != "") && intPart.toList.all Char.isDigit
          && fracPart.toList.all Char.isDigit then
        some ⟨sgn * ((digitsVal intPart.toList : Int) * (10 : Int) ^ fracPart.length
          + (digitsVal fracPart.toList : Int)), fracPart.length⟩
      else none
  | _ => none

/-- Order-preserving deduplication, as `pandas.Series.unique` (first
occurrence of each value is kept, in order). -/
def uniqueFirst (l : List String) : List String :=
  l.foldl (fun acc x => if acc.contains x then acc else acc ++ [x]) []

theorem uniqueFirst_aux_mem (l : List String) :
    ∀ (acc : List String) (x : String),
      x ∈ l.foldl (fun acc y => if acc.contains y then acc else acc ++ [y]) acc ↔
        x ∈ acc ∨ x ∈ l := by
  induction l with
  | nil => intro acc x; simp
  | cons y ys ih =>
      intro acc x
      simp only [List.foldl_cons, ih, List.mem_cons]
      by_cases hy : acc.contains y
      · have hy' : y ∈ acc := List.elem_iff.mp hy
        simp only [hy, if_pos]
        constructor
        · rintro (h | h)
          · exact Or.inl h
          · exact Or.inr (Or.inr h)
        · rintro (h | rfl | h)
          · exact Or.inl h
          · exact Or.inl hy'
          · exact Or.inr h
      · simp only [hy, if_neg, Bool.false_eq_true, not_false_iff, List.mem_append,
          List.mem_singleton]
        tauto

theorem mem_uniqueFirst {x : String} {l : List String} :
    x ∈ uniqueFirst l ↔ x ∈ l := by
  unfold uniqueFirst
  rw [uniqueFirst_aux_mem]
  simp

theorem uniqueFirst_aux_nodup (l : List String) :
    ∀ (acc : List String), acc.Nodup →
      (l.foldl (fun acc y => if acc.contains y then acc else acc ++ [y]) acc).Nodup := by
  induction l with
  | nil => intro acc h; simpa using h
  | cons y ys ih =>
      intro acc hacc
      simp only [List.foldl_cons]
      by_cases hy : acc.contains y
      · rw [if_pos hy]
        exact ih acc hacc
      · have hy' : y ∉ acc := fun hmem => hy (List.elem_iff.mpr hmem)
        rw [if_neg hy]
        refine ih (acc ++ [y]) ?_
        simp [List.nodup_append, hacc, hy']

theorem nodup_uniqueFirst (l : List String) : (uniqueFirst l).Nodup :=
  uniqueFirst_aux_nodup l [] List.nodup_nil

/-- One raw transaction row (all columns are strings; `idx` is the pandas
row index used by the scrubber's `df.drop`/`df.loc` operations). -/
structure InputRow where
  idx : Nat := 0
  eftNum : String := ""
  practiceId : String := ""
  chkNbr : String := ""
  encNbr : String := ""
  clmNbr : String := ""
  clmStsCod : String := ""
  patName : String := ""
  polNbr : String := ""
  description : String := ""
  cpt4 : String := ""
  postingSts : String := ""
  txnStatus : String := ""
  billAmt : String := ""
  pdAmt : String := ""
  dedAmt : String := ""
  reasonCd : String := ""
  remarkCodes : String := ""
  svcDate : String := ""
  file : String := ""
deriving DecidableEq

/-! ## Missing-encounter EFT pre-filter
(`ExcelDataObjectCreator._identify_and_remove_missing_encounter_efts` and
`get_missing_encounter_efts`, claim C5) -/

/-- The `missing_encounter_efts` list: the unique EFT numbers of rows whose
stripped `Description` is exactly `"Encounter not found."`, with
empty/whitespace EFT numbers dropped (kept `[]` when no row is flagged, as
in the Python, where the assignment is inside the non-empty branch). -/
def missingEncounterEfts (df : List InputRow) : List String :=
  let flagged := df.filter (fun r => r.description.pyStrip == "Encounter not found.")
  if flagged.isEmpty then []
  else
    (uniqueFirst (flagged.map (fun r => r.eftNum))).filter
      (fun e => e != "" && e.pyStrip != "")

/-- `_identify_and_remove_missing_encounter_efts` together with
`get_missing_encounter_efts`: the missing-encounter EFT list and the
filtered table (all rows of the listed EFT numbers removed; removal only
happens when the list is non-empty, which makes no difference). -/
def identifyAndRemoveMissingEncounterEfts (df : List InputRow) :
    List String × List InputRow :=
  let missing := missingEncounterEfts df
  if missing.isEmpty then (missing, df)
  else (missing, df.filter (fun r => !missing.contains r.eftNum))

/-- The EFT numbers that become keys of the hierarchy
(`create_data_object`: unique non-blank `EFT NUM` values of the remaining
table). -/
def hierarchyEftNums (df : List InputRow) : List String :=
  (uniqueFirst (df.map (fun r => r.eftNum))).filter (fun e => e != "" && e.pyStrip != "")

/-! ## PLA rows (`get_pla_rows`, `_create_pla_objects`, claim C6) -/

/-- `get_pla_rows` membership: condition 1 (blank `Enc Nbr` and description
contains "Provider Level Adjustment") or condition 2 (`Clm Nbr` is
"Provider Lvl Adj", non-blank `Enc Nbr`, description contains "L6"). -/
def isPlaRow (r : InputRow) : Bool :=
  (r.encNbr.pyStrip == "" && strContains r.description "Provider Level Adjustment")
  || (r.clmNbr.pyStrip == "Provider Lvl Adj" && r.encNbr.pyStrip != ""
      && strContains r.description "L6")

def getPlaRows (pmtRows : List InputRow) : List InputRow :=
  pmtRows.filter isPlaRow

/-- The L6 test applied to each PLA row by `_create_pla_objects`
(and `_calculate_pla_amounts`). -/
def isL6Row (r : InputRow) : Bool :=
  r.clmNbr.pyStrip == "Provider Lvl Adj" && r.encNbr.pyStrip != ""
  && strContains r.description.pyStrip "L6"

/-- Second half of `_clean_pla_description`: drop one known lead
("found: ", "applied: ", ": ", " - ") from the text after
"Provider Level Adjustment", then strip. -/
def stripKnownLead (r : String) : String :=
  if r.pyStartsWith "found: " then (r.pyDrop "found: ".length).pyStrip
  else if r.pyStartsWith "applied: " then (r.pyDrop "applied: ".length).pyStrip
  else if r.pyStartsWith ": " then (r.pyDrop ": ".length).pyStrip
  else if r.pyStartsWith " - " then (r.pyDrop " - ".length).pyStrip
  else r

/-- `_clean_pla_description`. -/
def cleanPlaDescription (description : String) : String :=
  if strContains description "Provider Level Adjustment found: " then
    (description.pyReplace "Provider Level Adjustment found: " "").pyStrip
  else if strContains description "Provider Level Adjustment " then
    match description.pySplit "Provider Level Adjustment" with
    | _ :: p1 :: _ => stripKnownLead p1.pyStrip
    | _ => description
  else description

/-- `_create_pla_objects`: walk the PLA rows once, appending each row's
cleaned description to the L6 list when `isL6Row` holds and to the Other
list when it does not. -/
def createPlaObjects : List InputRow → List String × List String
  | [] => ([], [])
  | r :: rs =>
      let rest := createPlaObjects rs
      if isL6Row r then (cleanPlaDescription r.description.pyStrip :: rest.1, rest.2)
      else (rest.1, cleanPlaDescription r.description.pyStrip :: rest.2)

theorem createPlaObjects_eq (l : List InputRow) :
    createPlaObjects l =
      ((l.filter isL6Row).map (fun r => cleanPlaDescription r.description.pyStrip),
       (l.filter (fun r => !isL6Row r)).map (fun r => cleanPlaDescription r.description.pyStrip)) := by
  induction l with
  | nil => rfl
  | cons r rs ih =>
      by_cases h : isL6Row r
      · simp [createPlaObjects, ih, h, List.filter_cons]
      · simp only [Bool.not_eq_true] at h
        simp [createPlaObjects, ih, h, List.filter_cons]

/-! ## Service objects (`_create_service_object`, claims C3/C10) -/

/-- A cell's code list: the whole stripped cell as a one-element list when
non-empty, else empty (used for both `Reason Cd` and `Remark Codes`). -/
def reasonCodesOf (cell : String) : List String :=
  let c := cell.pyStrip
  if c != "" then [c] else []

/-- Strip a parenthetical suffix from a claim-status code, exactly as the
Python does: only when `"("` occurs, keep the text before the first `"("`
and strip it. -/
def stripParen (s : String) : String :=
  if strContains s "(" then ((s.pySplit "(").headD "").pyStrip else s

/-- A service object.  `adj_amt` is `Option` because the Python reads it with
`service.get("adj_amt", "0")` and `_create_service_object` never sets the
key (so built services carry `none`). -/
structure Service where
  clm_sts : String := ""
  posting_sts : String := ""
  cpt4 : String := ""
  txn_status : String := ""
  description : String := ""
  bill_amt : String := ""
  paid_amt : String := ""
  ded_amt : String := ""
  codes : List String := []
  remarks : List String := []
  adj_amt : Option String := none
deriving DecidableEq

/-- `_create_service_object`. -/
def mkService (row : InputRow) : Service :=
  { clm_sts := stripParen row.clmStsCod.pyStrip
    posting_sts := row.postingSts.pyStrip
    cpt4 := row.cpt4.pyStrip
    txn_status := row.txnStatus.pyStrip
    description := row.description.pyStrip
    bill_amt := row.billAmt.pyStrip
    paid_amt := row.pdAmt.pyStrip
    ded_amt := row.dedAmt.pyStrip
    codes := reasonCodesOf row.reasonCd
    remarks := reasonCodesOf row.remarkCodes
    adj_amt := none }

/-! ## Encounter grouping (`get_encounter_rows`, `_create_encounter_object`,
`get_service_rows`, claim C4) -/

/-- The grouping key `enc_key`: raw `Enc Nbr` + `"_"` + raw `Clm Sts Cod`. -/
def encKey (r : InputRow) : String :=
  r.encNbr ++ "_" ++ r.clmStsCod

/-- `get_encounter_rows`: rows with non-blank `Enc Nbr` are grouped by the
unique `enc_key` values (first-occurrence order; keys equal to `""` or `"_"`
are skipped). -/
def getEncounterRows (pmtRows : List InputRow) : List (String × List InputRow) :=
  let encRows := pmtRows.filter (fun r => r.encNbr.pyStrip != "")
  let keys := (uniqueFirst (encRows.map encKey)).filter (fun k => k != "" && k != "_")
  keys.map (fun k => (k, encRows.filter (fun r => encKey r == k)))

/-- Python `encounter_key.split("_", 1)` when an underscore is present,
else `(key, "")`. -/
def splitFirstUnderscore (key : String) : String × String :=
  match key.pySplit "_" with
  | [] => (key, "")
  | [_] => (key, "")
  | p0 :: p1 :: ps => (p0, pyJoin "_" (p1 :: ps))

/-- An encounter object. -/
structure Encounter where
  num : String := ""
  status : String := ""
  services : List Service := []
  tags : List String := []
deriving DecidableEq

/-- `_create_encounter_object` (including `get_service_rows`: a row becomes a
service exactly when its `CPT4` is non-blank). -/
def createEncounterObject (encounterKey : String) (encRows : List InputRow) :
    Encounter :=
  let pr := splitFirstUnderscore encounterKey
  { num := pr.1
    status := stripParen pr.2
    services := (encRows.filter (fun r => r.cpt4.pyStrip != "")).map mkService
    tags := [] }

/-! ## File-column parsing (`_parse_file_column`, claim C8) -/

/-- `_parse_file_column` on the payment rows' `File` values: take the first
non-empty (stripped) file name, split on `"_"`, require at least six parts,
convert the third to a number; any failure yields `("", "", 0)` instead of
raising. -/
def parseFileColumn (files : List String) : String × String × Dec :=
  let fileNames := (files.map String.pyStrip).filter (fun f => f != "")
  match fileNames with
  | [] => ("", "", ⟨0, 0⟩)
  | fileName :: _ =>
      let parts := fileName.pySplit "_"
      if parts.length < 6 then ("", "", ⟨0, 0⟩)
      else
        match parseDecimal ((parts.getD 2 "").pyStrip) with
        | none => ("", "", ⟨0, 0⟩)
        | some amt => ((parts.getD 0 "").pyStrip, (parts.getD 3 "").pyStrip, amt)

/-! ## Tagged-hierarchy data model (the `data_object` after
`EncounterTagger`/`PaymentTagger` run, claims C1/C2/C9) -/

/-- One entry of a payment's `encs_to_check`: the review record returned by
`encounter_quick_check` (`types` maps each tag to the CPT4 codes that
produced it, in dict insertion order). -/
structure EncCheck where
  num : String := ""
  clmStatus : String := ""
  types : List (String × List String) := []
deriving DecidableEq

structure PlaLists where
  pla_l6 : List String := []
  pla_other : List String := []
deriving DecidableEq

/-- A payment object (dicts are modelled as association lists in insertion
order). -/
structure Payment where
  practice_id : String := ""
  num : String := ""
  amt : Dec := ⟨0, 0⟩
  status : String := ""
  plas : PlaLists := {}
  pla_l6_amts : Dec := ⟨0, 0⟩
  pla_other_amts : Dec := ⟨0, 0⟩
  encounters : List (String × Encounter) := []
  encsToCheck : List (String × EncCheck) := []
deriving DecidableEq

/-- An EFT object. -/
structure Eft where
  eft_num : String := ""
  payer : String := ""
  isSplit : Bool := false
  status : String := ""
  payments : List (String × Payment) := []
deriving DecidableEq

/-! ## PaymentTagger (`_determine_payment_status`, claim C1) -/

def notPostedList : List String :=
  ["enc_payer_not_found", "multiple_to_one", "other_not_posted",
   "svc_no_match_clm", "chg_mismatch_cpt4"]

def checkNgAndData : List String :=
  ["secondary_co94_oa94", "secondary_mc_tricare_dshs", "tertiary"]

def reversalsList : List String :=
  ["22_no_123", "22_with_123"]

def quickPostTypes : List String :=
  ["appeal_has_adj", "chg_equal_adj", "secondary_n408_pr96"]

/-- `has_plas`: either PLA list non-empty. -/
def hasPlasB (p : Payment) : Bool :=
  0 < p.plas.pla_l6.length || 0 < p.plas.pla_other.length

/-- `all_encounter_types`: the union over `encs_to_check` of each entry's
tag keys (a list with possible duplicates; only membership and emptiness
are ever used). -/
def allEncounterTypes (p : Payment) : List String :=
  p.encsToCheck.flatMap (fun kv => kv.2.types.map Prod.fst)

/-- `PaymentTagger._determine_payment_status`, statement for statement. -/
def determinePaymentStatus (p : Payment) : String :=
  let hasPlas := hasPlasB p
  if !hasPlas && p.encsToCheck.isEmpty then "Immediate Post"
  else if hasPlas && p.encsToCheck.isEmpty then "PLA Only"
  else if !p.encsToCheck.isEmpty then
    let allTypes := allEncounterTypes p
    if allTypes.any (fun t => notPostedList.contains t) then "Mixed Post"
    else if !hasPlas then
      if !allTypes.isEmpty && allTypes.all (fun t => quickPostTypes.contains t) then
        "Quick Post"
      else if allTypes.any (fun t => checkNgAndData.contains t)
          || allTypes.any (fun t => reversalsList.contains t) then "Full Post"
      else "Unknown"
    else "Unknown"
  else "Unknown"

/-- The payment-status rule as the specification words it, written as one
flat priority chain: Immediate Post, PLA Only, Mixed Post (regardless of
PLA state), Quick Post (no PLAs, non-empty tag union inside the quick-post
set), Full Post (no PLAs, tag union meets the check-NG/reversal sets),
else Unknown.  Compared against `determinePaymentStatus` in C1. -/
def paymentStatusSpec (p : Payment) : String :=
  let hasPlas := hasPlasB p
  let tags := allEncounterTypes p
  if !hasPlas && p.encsToCheck.isEmpty then "Immediate Post"
  else if hasPlas && p.encsToCheck.isEmpty then "PLA Only"
  else if tags.any (fun t => notPostedList.contains t) then "Mixed Post"
  else if !hasPlas && (!tags.isEmpty && tags.all (fun t => quickPostTypes.contains t)) then
    "Quick Post"
  else if !hasPlas && (tags.any (fun t => checkNgAndData.contains t)
      || tags.any (fun t => reversalsList.contains t)) then "Full Post"
  else "Unknown"

/-! ## EncounterTagger (`encounter_quick_check`, `_analyze_service`,
claims C2/C3/C10) -/

/-- The configured CPT4 service pairs. -/
def servicePairs : List (String × String) :=
  [("99202", "99212"), ("99203", "99213"), ("99204", "99214"),
   ("99205", "99215"), ("99206", "99216")]

/-- The `opposite_cpt4` loop: the partner of `cpt4` in the first pair that
contains it, if any. -/
def findOpposite (cpt4 : String) : Option String :=
  servicePairs.findSome? (fun pr =>
    if pr.1 == cpt4 then some pr.2
    else if pr.2 == cpt4 then some pr.1
    else none)

/-- `_get_adj_amt`: `service.get("adj_amt", "0")`. -/
def getAdjAmt (svc : Service) : String :=
  svc.adj_amt.getD "0"

/-- `_has_adjustment`: the adjustment amount converts to a non-zero number
(conversion failure counts as no adjustment). -/
def hasAdjustment (svc : Service) : Bool :=
  match parseDecimal (getAdjAmt svc) with
  | some q => q.num != 0
  | none => false

/-- `_amounts_equal`: both strings convert and the numbers are equal. -/
def amountsEqual (a b : String) : Bool :=
  match parseDecimal a, parseDecimal b with
  | some x, some y => x.numEq y
  | _, _ => false

/-- `_has_codes`: with `anyMatch` any required code present suffices, else
all required codes must be present (exact list membership). -/
def hasCodes (codeList requiredCodes : List String) (anyMatch : Bool) : Bool :=
  if anyMatch then requiredCodes.any (fun c => codeList.contains c)
  else requiredCodes.all (fun c => codeList.contains c)

/-- The non-recoupment skip: this service's CPT4, or its pair partner, is
among the recoupment CPT4s. -/
def recoupSkip (cpt4 : String) (recoupmentCpt4s : List String) : Bool :=
  recoupmentCpt4s.contains cpt4 ||
  (match findOpposite cpt4 with
   | some o => recoupmentCpt4s.contains o
   | none => false)

/-- `EncounterTagger._analyze_service`, branch for branch (each Python
`return` becomes one arm of the if-chain; falling through the secondary
block continues to the tertiary check exactly as in the source). -/
def analyzeService (svc : Service) (payer : String)
    (primaryCpt4s secondaryCpt4s tertiaryCpt4s recoupmentCpt4s : List String) :
    Option String :=
  let description := svc.description.pyStrip
  let postedSts := svc.posting_sts.pyStrip
  let clmSts := svc.clm_sts.pyStrip
  let cpt4 := svc.cpt4.pyStrip
  let txnStatus := svc.txn_status.pyStrip
  let billAmt := svc.bill_amt.pyStrip
  let codesAndRemarks := svc.codes ++ svc.remarks
  if description == "Encounter payer not found." then some "enc_payer_not_found"
  else if description == "Charge mismatch on amount." then some "multiple_to_one"
  else if description == "Multiple payments found for the same line item." then
    some "multiple_to_one"
  else if description == "Service line payments do not sum to claim level payment." then
    some "svc_no_match_clm"
  else if description == "Charge mismatch on CPT4." then some "chg_mismatch_cpt4"
  else if postedSts == "Not Posted" then some "other_not_posted"
  else if clmSts == "22" then
    let allOtherCpt4s := primaryCpt4s ++ secondaryCpt4s ++ tertiaryCpt4s
    if (match findOpposite cpt4 with
        | some o => allOtherCpt4s.contains o
        | none => false) then none
    else if allOtherCpt4s.contains cpt4 then some "22_with_123"
    else some "22_no_123"
  else if recoupSkip cpt4 recoupmentCpt4s then none
  else if txnStatus == "Appeal" && hasAdjustment svc then some "appeal_has_adj"
  else if amountsEqual billAmt (getAdjAmt svc) && txnStatus != "Appeal" then
    some "chg_equal_adj"
  else if (clmSts == "2" || clmSts == "20")
      && hasCodes codesAndRemarks ["N408", "PR96"] false
      && hasCodes codesAndRemarks ["CO45", "OA23"] true then
    some "secondary_n408_pr96"
  else if (clmSts == "2" || clmSts == "20")
      && hasCodes codesAndRemarks ["CO94", "OA94"] true
      && hasCodes codesAndRemarks ["CO45", "OA23"] true
      && hasCodes codesAndRemarks ["PR96"] false then
    some "secondary_co94_oa94"
  else if (clmSts == "2" || clmSts == "20")
      && (payer == "Medicare" || payer == "Tricare" || payer == "DSHS") then
    some "secondary_mc_tricare_dshs"
  else if clmSts.pyStartsWith "3" || clmSts == "21" then some "tertiary"
  else none

/-- `encounter_quick_check`'s `all_encounters`: the payment's encounters
whose number matches the analysed encounter's number. -/
def matchingEncounters (p : Payment) (encNum : String) : List Encounter :=
  (p.encounters.filter (fun kv => kv.2.num == encNum)).map (fun kv => kv.2)

/-- The CPT4 values of the services of a list of encounters, blanks
excluded (Python builds a set; only membership is ever used, so a list
with duplicates is an equivalent model). -/
def cpt4sOfEncs (encs : List Encounter) : List String :=
  ((encs.flatMap (fun e => e.services)).filter (fun s => s.cpt4 != "")).map
    (fun s => s.cpt4)

/-- `primary_cpt4s`: matching encounters with claim status 1 or 19. -/
def primaryCpt4s (p : Payment) (encNum : String) : List String :=
  cpt4sOfEncs ((matchingEncounters p encNum).filter
    (fun e => e.status != "22" && (e.status == "1" || e.status == "19")))

/-- `secondary_cpt4s`: matching encounters with claim status 2 or 20. -/
def secondaryCpt4s (p : Payment) (encNum : String) : List String :=
  cpt4sOfEncs ((matchingEncounters p encNum).filter
    (fun e => e.status != "22" && (e.status == "2" || e.status == "20")))

/-- `tertiary_cpt4s`: matching encounters whose status begins with "3" or
equals "21". -/
def tertiaryCpt4s (p : Payment) (encNum : String) : List String :=
  cpt4sOfEncs ((matchingEncounters p encNum).filter
    (fun e => e.status != "22" && (e.status.pyStartsWith "3" || e.status == "21")))

/-- `recoupment_cpt4s`: matching encounters with claim status 22. -/
def recoupmentCpt4s (p : Payment) (encNum : String) : List String :=
  cpt4sOfEncs ((matchingEncounters p encNum).filter (fun e => e.status == "22"))

/-! ## Scrubber interest/PLA fusion (`DataCleaner._process_check_group`,
`_update_pla_row`, `_extract_encounter_policy`, claim C7) -/

/-- Parse a leading `-?\d+\.\d+` from a string, returning the matched text
and its value (the capture group of the scrubber's amount regexes). -/
def parseMoneyLead (t : String) : Option (String × Dec) :=
  let sgnStr : String := if t.pyStartsWith "-" then "-" else ""
  let sgn : Int := if t.pyStartsWith "-" then -1 else 1
  let rest : List Char := if t.pyStartsWith "-" then t.toList.drop 1 else t.toList
  let intDigits := rest.takeWhile Char.isDigit
  match rest.drop intDigits.length with
  | '.' :: cs =>
      let fracDigits := cs.takeWhile Char.isDigit
      if intDigits.isEmpty || fracDigits.isEmpty then none
      else
        some (sgnStr ++ String.mk intDigits ++ "." ++ String.mk fracDigits,
          ⟨sgn * ((digitsVal intDigits : Int) * (10 : Int) ^ fracDigits.length
            + (digitsVal fracDigits : Int)), fracDigits.length⟩)
  | _ => none

/-- `re.search(r"<lead>.*\$(\-?\d+\.\d+)", desc)` on a description already
known to start with the lead text: the greedy `.*` makes the engine capture
the amount after the last `"$"` that is followed by one, backtracking to
earlier `"$"` occurrences on failure. -/
def searchDollarAmount (desc : String) : Option (String × Dec) :=
  match desc.pySplit "$" with
  | [] => none
  | _ :: rest => rest.reverse.findSome? parseMoneyLead

/-- `_calculate_interest_total`: sum the extracted amounts of the interest
rows; `none` as soon as any extraction fails. -/
def calculateInterestTotal (interestRows : List InputRow) : Option Dec :=
  interestRows.foldl
    (fun acc r =>
      match acc, searchDollarAmount r.description with
      | some t, some pr => some (t.add pr.2)
      | _, _ => none)
    (some ⟨0, 0⟩)

/-- `DataCleaner._extract_encounter_policy`.  The Python body initialises
`enc_nbr, pol_nbr = "", ""`, scans `match_rows` for the first row with both
`Enc Nbr` and `Pol Nbr` non-empty, and then falls off the end of the
function without a `return` statement — so it always evaluates to `None`,
even though its docstring promises the tuple
`(encounter_number, policy_number)`. -/
def extractEncounterPolicy (_matchRows : List InputRow) : Option (String × String) :=
  none

/-- The pair computed by the loop inside `_extract_encounter_policy` — the
value the missing `return` statement would have produced. -/
def extractEncounterPolicyLoop (matchRows : List InputRow) : String × String :=
  match matchRows.find? (fun r => r.encNbr != "" && r.polNbr != "") with
  | some r => (r.encNbr, r.polNbr)
  | none => ("", "")

/-- `DataCleaner._update_pla_row`: copy patient name and claim status from
the interest row onto the PLA row, find matching records, unpack the result
of `_extract_encounter_policy` (raising `TypeError` when it is `None`,
modelled as `Except.error`), and rewrite the PLA row's encounter/policy
numbers and description. -/
def updatePlaRow (df : List InputRow) (plaRow interestRow : InputRow)
    (chkNbr amtStr : String) : Except String (List InputRow) :=
  let patName := interestRow.patName
  let clmSts := interestRow.clmStsCod
  let df1 := df.map (fun r =>
    if r.idx == plaRow.idx then { r with patName := patName, clmStsCod := clmSts }
    else r)
  let matchRows := df1.filter (fun r =>
    r.chkNbr == chkNbr && r.patName == patName && r.clmStsCod == clmSts)
  match extractEncounterPolicy matchRows with
  | none => Except.error "TypeError: cannot unpack non-iterable NoneType object"
  | some pr =>
      Except.ok (df1.map (fun r =>
        if r.idx == plaRow.idx then
          { r with encNbr := pr.1, polNbr := pr.2,
                   description := "L6^Enc: " ++ pr.1 ++ "|Status: " ++ clmSts
                     ++ "|Pol Nbr: " ++ pr.2 ++ "|Amt: " ++ amtStr }
        else r))

/-- `DataCleaner._process_check_group`.  `Except.ok none` models the Python
`return None` (no interest/PLA pair), `Except.ok (some ...)` the merged
result (interest row indices to drop, updated table), `Except.error` an
uncaught exception. -/
def processCheckGroup (group : List InputRow) (chkNbr : String)
    (df : List InputRow) : Except String (Option (List Nat × List InputRow)) :=
  let interestRows := group.filter
    (fun r => r.description.pyStartsWith "Interest payment")
  let plaRows := group.filter
    (fun r => r.description.pyStartsWith "Provider Level Adjustment"
      && strContains r.description "L6")
  if plaRows.length != 1 || interestRows.length == 0 then Except.ok none
  else
    match plaRows.head?, interestRows.head? with
    | some plaRow, some firstInterest =>
        match searchDollarAmount plaRow.description with
        | none => Except.ok none
        | some amtPr =>
            match calculateInterestTotal interestRows with
            | none => Except.ok none
            | some interestTotal =>
                if amtPr.2.roundCents != interestTotal.roundCents then Except.ok none
                else
                  match updatePlaRow df plaRow firstInterest chkNbr amtPr.1 with
                  | Except.error e => Except.error e
                  | Except.ok df1 =>
                      Except.ok (some (interestRows.map (fun r => r.idx), df1))
    | _, _ => Except.ok none

/-! ## AnalyticsProcessor (`analyze_mixed_post_payments`,
`_analyze_charge_mismatch_encounters`, `_analyze_max_encounters`,
`_process_analytics_results`, claim C9) -/

/-- The per-payment record built at the top of the Mixed-Post scan loop. -/
structure PaymentInfo where
  eftNum : String
  practiceId : String
  paymentNum : String
  paymentAmount : Dec
  encsToCheckCount : Nat
  totalEncounters : Nat
  plaL6Count : Nat
  plaOtherCount : Nat
  paymentStatus : String
  encountersToCheck : List (String × EncCheck)
deriving DecidableEq

def mkPaymentInfo (eftNum : String) (p : Payment) : PaymentInfo :=
  { eftNum := eftNum
    practiceId := p.practice_id
    paymentNum := p.num
    paymentAmount := p.amt
    encsToCheckCount := p.encsToCheck.length
    totalEncounters := p.encounters.length
    plaL6Count := p.plas.pla_l6.length
    plaOtherCount := p.plas.pla_other.length
    paymentStatus := p.status
    encountersToCheck := p.encsToCheck }

/-- The record built by `_analyze_charge_mismatch_encounters` for each
`encs_to_check` entry carrying the `chg_mismatch_cpt4` type. -/
structure EncounterInfo where
  eftNum : String
  practiceId : String
  paymentNum : String
  paymentAmount : Dec
  encounterNum : String
  encounterStatus : String
  encounterKey : String
  encsToCheckCount : Nat
  cpt4Codes : List String
deriving DecidableEq

/-- Python `dict.get` on the `types` mapping. -/
def lookupType (types : List (String × List String)) (key : String) :
    Option (List String) :=
  (types.find? (fun kv => kv.1 == key)).map Prod.snd

def mkEncounterInfo (pinfo : PaymentInfo) (key : String) (encData : EncCheck) :
    EncounterInfo :=
  { eftNum := pinfo.eftNum
    practiceId := pinfo.practiceId
    paymentNum := pinfo.paymentNum
    paymentAmount := pinfo.paymentAmount
    encounterNum := encData.num
    encounterStatus := encData.clmStatus
    encounterKey := key
    encsToCheckCount := pinfo.encsToCheckCount
    cpt4Codes := (lookupType encData.types "chg_mismatch_cpt4").getD [] }

/-- `"chg_mismatch_cpt4" in encounter_types`. -/
def hasChgMismatch (encData : EncCheck) : Bool :=
  encData.types.any (fun kv => kv.1 == "chg_mismatch_cpt4")

/-- `has_no_plas` in the scan loop. -/
def paymentNoPlas (p : Payment) : Bool :=
  !(0 < p.plas.pla_l6.length) && !(0 < p.plas.pla_other.length)

/-- `has_only_l6_plas` in the scan loop. -/
def paymentOnlyL6 (p : Payment) : Bool :=
  (0 < p.plas.pla_l6.length) && !(0 < p.plas.pla_other.length)

/-- The Mixed-Post payments visited by the scan loop: payments with status
"Mixed Post" inside EFTs that are *not* split, paired with their EFT key,
in iteration order. -/
def mixedPostPayments (d : List (String × Eft)) : List (String × Payment) :=
  (d.filter (fun kv => !kv.2.isSplit)).flatMap
    (fun kv => ((kv.2.payments.filter (fun pkv => pkv.2.status == "Mixed Post")).map
      (fun pkv => (kv.1, pkv.2))))

def mixedPostNoPlasUnsorted (d : List (String × Eft)) : List PaymentInfo :=
  ((mixedPostPayments d).filter (fun ep => paymentNoPlas ep.2)).map
    (fun ep => mkPaymentInfo ep.1 ep.2)

def mixedPostL6OnlyUnsorted (d : List (String × Eft)) : List PaymentInfo :=
  ((mixedPostPayments d).filter (fun ep => paymentOnlyL6 ep.2)).map
    (fun ep => mkPaymentInfo ep.1 ep.2)

def chargeMismatchUnsorted (d : List (String × Eft)) : List EncounterInfo :=
  (mixedPostPayments d).flatMap (fun ep =>
    (ep.2.encsToCheck.filter (fun ekv => hasChgMismatch ekv.2)).map
      (fun ekv => mkEncounterInfo (mkPaymentInfo ep.1 ep.2) ekv.1 ekv.2))

/-- The record built for the not-split maximum search (lines 861–870). -/
structure MaxPaymentInfo where
  eftNum : String
  practiceId : String
  paymentNum : String
  encsToCheckCount : Nat
  totalEncounters : Nat
  paymentStatus : String
  plaL6Count : Nat
  plaOtherCount : Nat
deriving DecidableEq

def mkMaxPaymentInfo (eftNum : String) (p : Payment) : MaxPaymentInfo :=
  { eftNum := eftNum
    practiceId := p.practice_id
    paymentNum := p.num
    encsToCheckCount := p.encsToCheck.length
    totalEncounters := p.encounters.length
    paymentStatus := p.status
    plaL6Count := p.plas.pla_l6.length
    plaOtherCount := p.plas.pla_other.length }

/-- One per-payment line of a split EFT's detail list. -/
structure EftPaymentSummary where
  practiceId : String
  paymentNum : String
  encsToCheck : Nat
  status : String
  plaL6Count : Nat
  plaOtherCount : Nat
deriving DecidableEq

/-- The record built for the split-EFT maximum search (lines 835–852). -/
structure EftInfo where
  eftNum : String
  totalEncsToCheck : Nat
  paymentCount : Nat
  payments : List EftPaymentSummary
deriving DecidableEq

def eftTotalEncsToCheck (e : Eft) : Nat :=
  (e.payments.map (fun pkv => pkv.2.encsToCheck.length)).sum

def mkEftInfo (eftNum : String) (e : Eft) : EftInfo :=
  { eftNum := eftNum
    totalEncsToCheck := eftTotalEncsToCheck e
    paymentCount := e.payments.length
    payments := e.payments.map (fun pkv =>
      { practiceId := pkv.2.practice_id
        paymentNum := pkv.2.num
        encsToCheck := pkv.2.encsToCheck.length
        status := pkv.2.status
        plaL6Count := pkv.2.plas.pla_l6.length
        plaOtherCount := pkv.2.plas.pla_other.length }) }

/-- The running-maximum update used by `_analyze_max_encounters`: keep the
current record unless the candidate is strictly larger (first maximum
wins on ties), starting from `None`. -/
def selectMax {α : Type} (f : α → Nat) (l : List α) : Option α :=
  l.foldl
    (fun acc x =>
      match acc with
      | none => some x
      | some c => if f c < f x then some x else some c)
    none

/-- Candidates for the not-split maximum: payments of not-split EFTs with a
positive `encs_to_check` count, in iteration order. -/
def maxPaymentCandidates (d : List (String × Eft)) : List MaxPaymentInfo :=
  (d.filter (fun kv => !kv.2.isSplit)).flatMap
    (fun kv => (kv.2.payments.filter (fun pkv => 0 < pkv.2.encsToCheck.length)).map
      (fun pkv => mkMaxPaymentInfo kv.1 pkv.2))

/-- Candidates for the split maximum: split EFTs with a positive total
`encs_to_check` count, in iteration order. -/
def maxEftCandidates (d : List (String × Eft)) : List EftInfo :=
  (d.filter (fun kv => kv.2.isSplit)).filterMap
    (fun kv => if 0 < eftTotalEncsToCheck kv.2 then some (mkEftInfo kv.1 kv.2) else none)

/-- `_analyze_max_encounters` (the two running maxima are independent, so
the interleaved loop is the pair of folds over the candidate lists). -/
def analyzeMaxEncounters (d : List (String × Eft)) :
    Option MaxPaymentInfo × Option EftInfo :=
  (selectMax (fun m => m.encsToCheckCount) (maxPaymentCandidates d),
   selectMax (fun m => m.totalEncsToCheck) (maxEftCandidates d))

/-- `list.sort(key=..., reverse=True)` on the payment-info lists. -/
def sortDescByEncs (l : List PaymentInfo) : List PaymentInfo :=
  l.mergeSort (fun a b => b.encsToCheckCount ≤ a.encsToCheckCount)

/-- `list.sort(key=...)` on the charge-mismatch list (ascending). -/
def sortAscByEncs (l : List EncounterInfo) : List EncounterInfo :=
  l.mergeSort (fun a b => a.encsToCheckCount ≤ b.encsToCheckCount)

structure AnalyticsResults where
  mixedPostNoPlas : List PaymentInfo
  mixedPostL6Only : List PaymentInfo
  chargeMismatchCpt4Encounters : List EncounterInfo
  maxNotSplitSinglePayment : Option MaxPaymentInfo
  maxSplitSingleEft : Option EftInfo
deriving DecidableEq

/-- `AnalyticsProcessor.analyze_mixed_post_payments`: gather the three
lists from the (not-split) Mixed-Post scan, sort them, and run the maximum
analysis. -/
def analyzeMixedPostPayments (d : List (String × Eft)) : AnalyticsResults :=
  { mixedPostNoPlas := sortDescByEncs (mixedPostNoPlasUnsorted d)
    mixedPostL6Only := sortDescByEncs (mixedPostL6OnlyUnsorted d)
    chargeMismatchCpt4Encounters := sortAscByEncs (chargeMismatchUnsorted d)
    maxNotSplitSinglePayment := (analyzeMaxEncounters d).1
    maxSplitSingleEft := (analyzeMaxEncounters d).2 }

/-! ## Claim theorems -/

theorem allEncounterTypes_of_empty {p : Payment} (h : p.encsToCheck.isEmpty) :
    allEncounterTypes p = [] := by
  unfold allEncounterTypes
  rw [List.isEmpty_iff] at h
  rw [h]
  rfl

/-- C1: after tagging, `_determine_payment_status` returns exactly one
status from the closed enum, and it agrees with the spec's priority chain:
Immediate Post (no PLAs, no encounters-to-check), else PLA Only (PLAs, no
encounters-to-check), else Mixed Post (some tag in the not-posted set,
regardless of PLA state), else Quick Post (no PLAs, non-empty tag union
inside the quick-post set), else Full Post (no PLAs, tag union meeting the
check-NG/reversal sets), otherwise Unknown — always returned, never
omitted. -/
theorem c1_payment_status_priority (p : Payment) :
    determinePaymentStatus p = paymentStatusSpec p ∧
    determinePaymentStatus p ∈ ["Immediate Post", "PLA Only", "Mixed Post",
      "Quick Post", "Full Post", "Unknown"] := by
  have heq : determinePaymentStatus p = paymentStatusSpec p := by
    unfold determinePaymentStatus paymentStatusSpec
    by_cases hE : p.encsToCheck.isEmpty
    · have hT : allEncounterTypes p = [] := allEncounterTypes_of_empty hE
      by_cases hP : hasPlasB p <;> simp [hE, hP, hT]
    · by_cases hM : (allEncounterTypes p).any (fun t => notPostedList.contains t) <;>
        by_cases hP : hasPlasB p <;>
          simp [hE, hP, hM]
  refine ⟨heq, ?_⟩
  rw [heq]
  unfold paymentStatusSpec
  dsimp only
  split_ifs <;> simp

/-- C2 scenario fixture: the status-22 service on encounter "1001". -/
def svc22C2 : Service := { clm_sts := "22", cpt4 := "99213" }

/-- C2 scenario fixture: the status-1 service with the same CPT4. -/
def svc1C2 : Service := { clm_sts := "1", cpt4 := "99213" }

def enc22C2 : Encounter := { num := "1001", status := "22", services := [svc22C2] }

def enc1C2 : Encounter := { num := "1001", status := "1", services := [svc1C2] }

/-- C2 scenario fixture: a payment with two encounters sharing
`enc_num = "1001"`, one with claim status "22" and one with "1", both with
CPT4 "99213". -/
def pmtC2 : Payment :=
  { encounters := [("1001_22", enc22C2), ("1001_1", enc1C2)] }

/-- C2: for a service whose claim status is "22" that no earlier rule
matched, `_analyze_service` applied to the CPT4 unions that
`encounter_quick_check` builds from the encounters of the same payment
sharing the service's encounter number (primary statuses 1/19, secondary
2/20, tertiary "3…"/21) skips the service when its configured pair partner
is in the union, and otherwise tags it `22_with_123` when its own CPT4 is
in the union and `22_no_123` when it is not. -/
theorem c2_recoupment_classification (p : Payment) (payer : String)
    (svc : Service) (encNum : String)
    (hd1 : svc.description.pyStrip ≠ "Encounter payer not found.")
    (hd2 : svc.description.pyStrip ≠ "Charge mismatch on amount.")
    (hd3 : svc.description.pyStrip ≠ "Multiple payments found for the same line item.")
    (hd4 : svc.description.pyStrip ≠ "Service line payments do not sum to claim level payment.")
    (hd5 : svc.description.pyStrip ≠ "Charge mismatch on CPT4.")
    (hp : svc.posting_sts.pyStrip ≠ "Not Posted")
    (h22 : svc.clm_sts.pyStrip = "22") :
    analyzeService svc payer (primaryCpt4s p encNum) (secondaryCpt4s p encNum)
        (tertiaryCpt4s p encNum) (recoupmentCpt4s p encNum) =
      (let U := primaryCpt4s p encNum ++ secondaryCpt4s p encNum ++ tertiaryCpt4s p encNum
       if (match findOpposite svc.cpt4.pyStrip with
           | some o => U.contains o
           | none => false) then none
       else if U.contains svc.cpt4.pyStrip then some "22_with_123"
       else some "22_no_123") := by
  unfold analyzeService
  simp [hd1, hd2, hd3, hd4, hd5, hp, h22]

/-- C2 witness: in the scenario of the claim the status-22 service is
tagged `22_with_123`. -/
theorem c2_recoupment_classification_witness :
    analyzeService svc22C2 "Aetna" (primaryCpt4s pmtC2 "1001")
      (secondaryCpt4s pmtC2 "1001") (tertiaryCpt4s pmtC2 "1001")
      (recoupmentCpt4s pmtC2 "1001") = some "22_with_123" := by
  have h := c2_recoupment_classification pmtC2 "Aetna" svc22C2 "1001"
    (by decide) (by decide) (by decide) (by decide) (by decide) (by decide) (by decide)
  rw [h]
  decide

/-- C3: for a service not matched by an earlier rule (no exact-description
tag, not "Not Posted", not skipped by the recoupment check) whose claim
status is not "22": transaction status "Appeal" with a non-zero adjustment
amount yields `appeal_has_adj`; otherwise a billed amount numerically equal
to the adjustment amount with a non-"Appeal" transaction status yields
`chg_equal_adj`. -/
theorem c3_appeal_and_charge_equal (svc : Service) (payer : String)
    (P S T R : List String)
    (hd1 : svc.description.pyStrip ≠ "Encounter payer not found.")
    (hd2 : svc.description.pyStrip ≠ "Charge mismatch on amount.")
    (hd3 : svc.description.pyStrip ≠ "Multiple payments found for the same line item.")
    (hd4 : svc.description.pyStrip ≠ "Service line payments do not sum to claim level payment.")
    (hd5 : svc.description.pyStrip ≠ "Charge mismatch on CPT4.")
    (hp : svc.posting_sts.pyStrip ≠ "Not Posted")
    (h22 : svc.clm_sts.pyStrip ≠ "22")
    (hskip : recoupSkip svc.cpt4.pyStrip R = false) :
    (svc.txn_status.pyStrip = "Appeal" → hasAdjustment svc = true →
       analyzeService svc payer P S T R = some "appeal_has_adj")
  ∧ (amountsEqual svc.bill_amt.pyStrip (getAdjAmt svc) = true →
       svc.txn_status.pyStrip ≠ "Appeal" →
       analyzeService svc payer P S T R = some "chg_equal_adj") := by
  constructor
  · intro hap hadj
    unfold analyzeService
    simp [hd1, hd2, hd3, hd4, hd5, hp, h22, hskip, hap, hadj]
  · intro heq hnap
    unfold analyzeService
    simp [hd1, hd2, hd3, hd4, hd5, hp, h22, hskip, heq, hnap]

/-- C3 witness fixture: an appealed service with a non-zero adjustment. -/
def svcC3 : Service :=
  { clm_sts := "1", cpt4 := "99213", txn_status := "Appeal",
    bill_amt := "100.00", adj_amt := some "5.00" }

/-- C3 witness: the appealed service with adjustment "5.00" is tagged
`appeal_has_adj`. -/
theorem c3_appeal_and_charge_equal_witness :
    analyzeService svcC3 "Aetna" [] [] [] [] = some "appeal_has_adj" :=
  (c3_appeal_and_charge_equal svcC3 "Aetna" [] [] [] []
    (by decide) (by decide) (by decide) (by decide) (by decide) (by decide)
    (by decide) (by decide)).1 (by decide) (by decide)

theorem map_fst_pairing {α β : Type} (l : List α) (f : α → β) :
    (l.map (fun k => (k, f k))).map Prod.fst = l := by
  induction l with
  | nil => rfl
  | cons x xs ih => simp [ih]

theorem isEmpty_false_of_mem {α : Type} {l : List α} {a : α} (h : a ∈ l) :
    l.isEmpty = false := by
  cases l with
  | nil => cases h
  | cons x xs => rfl

/-- C4 counterexample fixtures: two rows differing only by a parenthetical
suffix on the claim-status code. -/
def rowA4 : InputRow := { encNbr := "1001", clmStsCod := "22", cpt4 := "99213" }

def rowB4 : InputRow :=
  { encNbr := "1001", clmStsCod := "22 (Reprocessed)", cpt4 := "99213" }

/-- C4 counterexample: the suffix is *not* stripped before the grouping key
is formed — the two rows land in two distinct encounter groups, and the two
resulting Encounters carry the identical pair `("1001", "22")`, so the
claimed same-Encounter grouping and the claimed uniqueness of
`(num, status)` within a payment both fail. -/
theorem c4_counterexample :
    (getEncounterRows [rowA4, rowB4]).map Prod.fst
      = ["1001_22", "1001_22 (Reprocessed)"]
  ∧ (getEncounterRows [rowA4, rowB4]).map
        (fun kv => ((createEncounterObject kv.1 kv.2).num,
          (createEncounterObject kv.1 kv.2).status))
      = [("1001", "22"), ("1001", "22")] := by decide

/-- C4 (amended): the parenthetical suffix is stripped only *after*
grouping, when the Encounter object is built: the grouping keys (raw
encounter number + "_" + raw claim-status code) are pairwise distinct
within a payment, every built Encounter's `num`/`status` come from the key
split at the first underscore with the parenthetical suffix stripped from
the status, and e.g. "22 (Reprocessed)" strips to "22".  Rows differing
only by such a suffix therefore fall into different Encounters whose
stripped `(num, status)` pairs may coincide. -/
theorem c4_encounter_grouping (pmtRows : List InputRow) :
    ((getEncounterRows pmtRows).map Prod.fst).Nodup
  ∧ (∀ kv ∈ getEncounterRows pmtRows,
      (createEncounterObject kv.1 kv.2).num = (splitFirstUnderscore kv.1).1 ∧
      (createEncounterObject kv.1 kv.2).status
        = stripParen (splitFirstUnderscore kv.1).2)
  ∧ stripParen "22 (Reprocessed)" = "22" := by
  refine ⟨?_, fun kv _ => ⟨rfl, rfl⟩, by decide⟩
  unfold getEncounterRows
  dsimp only
  rw [map_fst_pairing]
  exact (nodup_uniqueFirst _).filter _

/-- C4 witness: on the counterexample rows the raw grouping keys are
distinct and the stripping example holds. -/
theorem c4_encounter_grouping_witness :
    ((getEncounterRows [rowA4, rowB4]).map Prod.fst).Nodup
  ∧ stripParen "22 (Reprocessed)" = "22" :=
  ⟨(c4_encounter_grouping [rowA4, rowB4]).1,
   (c4_encounter_grouping [rowA4, rowB4]).2.2⟩

/-- C5 counterexample fixture: a flagged row with a blank EFT NUM. -/
def rowBlank5 : InputRow := { description := "Encounter not found." }

/-- C5 counterexample: a row whose stripped Description is exactly
"Encounter not found." but whose EFT NUM is blank is *not* removed and its
EFT number does not appear in the excluded list, so the claim's universal
statement fails as written. -/
theorem c5_counterexample :
    identifyAndRemoveMissingEncounterEfts [rowBlank5] = ([], [rowBlank5])
  ∧ rowBlank5.description.pyStrip = "Encounter not found." := by decide

/-- C5 (amended): for every flagged row whose EFT NUM is non-blank (the
blank-EFT edge is excluded by the code's own filter), all rows with that
EFT NUM are removed, the EFT number cannot appear among the hierarchy's EFT
keys, and it appears in the excluded list returned by
`get_missing_encounter_efts`. -/
theorem c5_missing_efts (df : List InputRow) (r : InputRow)
    (hmem : r ∈ df) (hdesc : r.description.pyStrip = "Encounter not found.")
    (hne : r.eftNum ≠ "") (hnet : r.eftNum.pyStrip ≠ "") :
    r.eftNum ∈ (identifyAndRemoveMissingEncounterEfts df).1
  ∧ (∀ r' ∈ (identifyAndRemoveMissingEncounterEfts df).2, r'.eftNum ≠ r.eftNum)
  ∧ r.eftNum ∉ hierarchyEftNums (identifyAndRemoveMissingEncounterEfts df).2 := by
  have hrf : r ∈ df.filter (fun x => x.description.pyStrip == "Encounter not found.") :=
    List.mem_filter.mpr ⟨hmem, by simp [hdesc]⟩
  have hflagne :
      (df.filter (fun x => x.description.pyStrip == "Encounter not found.")).isEmpty
        = false := isEmpty_false_of_mem hrf
  have hM : r.eftNum ∈ missingEncounterEfts df := by
    unfold missingEncounterEfts
    dsimp only
    rw [hflagne]
    simp only [Bool.false_eq_true, if_false]
    exact List.mem_filter.mpr
      ⟨mem_uniqueFirst.mpr (List.mem_map.mpr ⟨r, hrf, rfl⟩), by simp [hne, hnet]⟩
  have hMne : (missingEncounterEfts df).isEmpty = false := isEmpty_false_of_mem hM
  have hres : identifyAndRemoveMissingEncounterEfts df
      = (missingEncounterEfts df,
         df.filter (fun x => !(missingEncounterEfts df).contains x.eftNum)) := by
    unfold identifyAndRemoveMissingEncounterEfts
    dsimp only
    rw [hMne]
    simp
  have hgone : ∀ r' ∈ (identifyAndRemoveMissingEncounterEfts df).2,
      r'.eftNum ≠ r.eftNum := by
    intro r' hr' heq
    rw [hres] at hr'
    have h2 := (List.mem_filter.mp hr').2
    rw [heq] at h2
    simp only [Bool.not_eq_true'] at h2
    have h4 : r.eftNum ∉ missingEncounterEfts df := by simpa using h2
    exact h4 hM
  refine ⟨by rw [hres]; exact hM, hgone, ?_⟩
  intro hmem2
  unfold hierarchyEftNums at hmem2
  have h2 := (List.mem_filter.mp hmem2).1
  rw [mem_uniqueFirst] at h2
  obtain ⟨r', hr', heq⟩ := List.mem_map.mp h2
  exact hgone r' hr' heq

/-- C5 witness fixtures: one flagged EFT "E1" (two rows) and a healthy EFT
"E2". -/
def rowFlag5 : InputRow :=
  { idx := 0, eftNum := "E1", description := "Encounter not found." }

def rowSib5 : InputRow := { idx := 1, eftNum := "E1", encNbr := "1001" }

def rowKeep5 : InputRow := { idx := 2, eftNum := "E2", encNbr := "1002" }

def dfC5 : List InputRow := [rowFlag5, rowSib5, rowKeep5]

/-- C5 witness: EFT "E1" is excluded, all its rows are removed, and it
cannot appear among the hierarchy's EFT numbers. -/
theorem c5_missing_efts_witness :
    "E1" ∈ (identifyAndRemoveMissingEncounterEfts dfC5).1
  ∧ (∀ r' ∈ (identifyAndRemoveMissingEncounterEfts dfC5).2, r'.eftNum ≠ "E1")
  ∧ "E1" ∉ hierarchyEftNums (identifyAndRemoveMissingEncounterEfts dfC5).2 :=
  c5_missing_efts dfC5 rowFlag5 (by decide) (by decide) (by decide) (by decide)

theorem length_filter_partition {α : Type} (p : α → Bool) (l : List α) :
    (l.filter p).length + (l.filter (fun a => !p a)).length = l.length := by
  induction l with
  | nil => rfl
  | cons x xs ih =>
      by_cases h : p x <;> simp [List.filter_cons, h, ← ih] <;> omega

/-- C6: `_create_pla_objects` places every PLA row (as selected by
`get_pla_rows`) in exactly one of `pla_l6`/`pla_other`: the L6 list is
exactly the cleaned descriptions of the rows satisfying the L6 test
(`Clm Nbr` = "Provider Lvl Adj", non-blank `Enc Nbr`, description contains
"L6"), the Other list exactly those of the remaining rows, and the lengths
add up to the number of PLA rows — so the lists are disjoint as positions
and jointly exhaustive. -/
theorem c6_pla_partition (pmtRows : List InputRow) :
    (createPlaObjects (getPlaRows pmtRows)).1
      = ((getPlaRows pmtRows).filter isL6Row).map
          (fun r => cleanPlaDescription r.description.pyStrip)
  ∧ (createPlaObjects (getPlaRows pmtRows)).2
      = ((getPlaRows pmtRows).filter (fun r => !isL6Row r)).map
          (fun r => cleanPlaDescription r.description.pyStrip)
  ∧ (createPlaObjects (getPlaRows pmtRows)).1.length
      + (createPlaObjects (getPlaRows pmtRows)).2.length
      = (getPlaRows pmtRows).length
  ∧ (∀ r ∈ getPlaRows pmtRows,
      (isL6Row r = true ↔ (r.clmNbr.pyStrip = "Provider Lvl Adj"
        ∧ r.encNbr.pyStrip ≠ "" ∧ strContains r.description.pyStrip "L6" = true))) := by
  refine ⟨?_, ?_, ?_, ?_⟩
  · rw [createPlaObjects_eq]
  · rw [createPlaObjects_eq]
  · rw [createPlaObjects_eq]
    simp only [List.length_map]
    exact length_filter_partition _ _
  · intro r _
    simp [isL6Row, and_assoc]

/-- C6 witness fixtures: one L6 PLA row, one Other PLA row, one non-PLA
service row. -/
def plaRow6a : InputRow :=
  { idx := 0, clmNbr := "Provider Lvl Adj", encNbr := "1001",
    description := "Provider Level Adjustment found: $12.50 L6" }

def plaRow6b : InputRow :=
  { idx := 1, description := "Provider Level Adjustment found: $3.00" }

def svcRow6 : InputRow := { idx := 2, encNbr := "1002", cpt4 := "99213" }

def rows6 : List InputRow := [plaRow6a, plaRow6b, svcRow6]

/-- C6 witness: on the fixture rows the two PLA lists partition the two PLA
rows and the L6 characterisation holds for the L6 row. -/
theorem c6_pla_partition_witness :
    (createPlaObjects (getPlaRows rows6)).1.length
      + (createPlaObjects (getPlaRows rows6)).2.length
      = (getPlaRows rows6).length
  ∧ isL6Row plaRow6a = true :=
  ⟨(c6_pla_partition rows6).2.2.1,
   ((c6_pla_partition rows6).2.2.2 plaRow6a (by decide)).mpr (by decide)⟩

/-- C7 fixtures: a check group with exactly one L6 PLA row, one matching
interest row (equal amounts), and a service row carrying the encounter and
policy numbers the merge is supposed to pick up. -/
def plaRowC7 : InputRow :=
  { idx := 0, chkNbr := "CHK1",
    description := "Provider Level Adjustment found: $25.00 L6" }

def interestRowC7 : InputRow :=
  { idx := 1, chkNbr := "CHK1", patName := "DOE,JOHN", clmStsCod := "1",
    description := "Interest payment $25.00" }

def svcRowC7 : InputRow :=
  { idx := 2, chkNbr := "CHK1", patName := "DOE,JOHN", clmStsCod := "1",
    encNbr := "1001", polNbr := "POL1", cpt4 := "99213" }

def dfC7 : List InputRow := [plaRowC7, interestRowC7, svcRowC7]

/-- C7: on a qualifying check group (one L6 PLA row, interest rows whose
extracted total equals the PLA amount after rounding to cents),
`_process_check_group` does *not* complete the merge: it raises a
`TypeError`, because `_extract_encounter_policy` is missing its `return`
statement and always yields `None`, which `_update_pla_row` unpacks.  The
second conjunct shows the data the loop inside `_extract_encounter_policy`
actually found (and would have returned) on the matching records. -/
theorem c7_interest_pla_merge_raises :
    processCheckGroup dfC7 "CHK1" dfC7
      = Except.error "TypeError: cannot unpack non-iterable NoneType object"
  ∧ extractEncounterPolicyLoop (dfC7.filter (fun r =>
      r.chkNbr == "CHK1" && r.patName == "DOE,JOHN" && r.clmStsCod == "1"))
      = ("1001", "POL1") :=
  ⟨rfl, rfl⟩

/-- C8: `_parse_file_column` never raises — with the first non-empty
(stripped) `File` value in hand, fewer than six underscore-separated parts
or a non-numeric amount part yields `("", "", 0.00)`, and in the six-part
form the returned amount is the numeric value of the third part. -/
theorem c8_parse_file (files : List String) (fileName : String)
    (hfirst : ((files.map String.pyStrip).filter (fun f => f != "")).head?
      = some fileName) :
    (((fileName.pySplit "_").length < 6
        ∨ parseDecimal (((fileName.pySplit "_").getD 2 "").pyStrip) = none) →
      parseFileColumn files = ("", "", ⟨0, 0⟩))
  ∧ (∀ q : Dec, (fileName.pySplit "_").length = 6 →
      parseDecimal (((fileName.pySplit "_").getD 2 "").pyStrip) = some q →
      (parseFileColumn files).2.2 = q) := by
  have hstep : parseFileColumn files =
      (if (fileName.pySplit "_").length < 6 then ("", "", (⟨0, 0⟩ : Dec))
       else
         match parseDecimal (((fileName.pySplit "_").getD 2 "").pyStrip) with
         | none => ("", "", (⟨0, 0⟩ : Dec))
         | some amt => (((fileName.pySplit "_").getD 0 "").pyStrip,
             ((fileName.pySplit "_").getD 3 "").pyStrip, amt)) := by
    unfold parseFileColumn
    cases hl : (files.map String.pyStrip).filter (fun f => f != "") with
    | nil => rw [hl] at hfirst; cases hfirst
    | cons f rest =>
        rw [hl] at hfirst
        have hf : f = fileName := by simpa using hfirst
        subst hf
        rfl
  rw [hstep]
  constructor
  · rintro (hlt | hnone)
    · rw [if_pos hlt]
    · by_cases h6 : (fileName.pySplit "_").length < 6
      · rw [if_pos h6]
      · rw [if_neg h6, hnone]
  · intro q h6 hq
    have hnlt : ¬(fileName.pySplit "_").length < 6 := by omega
    rw [if_neg hnlt, hq]

/-- C8 witness: a malformed file name yields the zero default, and the
documented six-part example yields amount 35.03. -/
theorem c8_parse_file_witness :
    parseFileColumn ["bad_file"] = ("", "", ⟨0, 0⟩)
  ∧ (parseFileColumn ["207008_SB542_35.03_1525153B100018112000_ACH_20250603"]).2.2
      = ⟨3503, 2⟩ :=
  ⟨(c8_parse_file ["bad_file"] "bad_file" (by decide)).1 (Or.inl (by decide)),
   (c8_parse_file ["207008_SB542_35.03_1525153B100018112000_ACH_20250603"]
      "207008_SB542_35.03_1525153B100018112000_ACH_20250603" (by decide)).2
     ⟨3503, 2⟩ (by decide) (by decide)⟩

theorem mem_reasonCodesOf {x cell : String} :
    x ∈ reasonCodesOf cell ↔ (cell.pyStrip ≠ "" ∧ x = cell.pyStrip) := by
  unfold reasonCodesOf
  by_cases h : cell.pyStrip = "" <;> simp [h]

/-- C10: each of a built service's `codes`/`remarks` lists holds at most one
element — the whole stripped cell — and `_has_codes` tests exact list
membership, so a rule requiring both "N408" and "PR96" fires exactly when
the two cells are each exactly one of the two codes, and a single cell
holding several codes separated by spaces or commas never satisfies any
separator-free code requirement. -/
theorem c10_code_cells (row : InputRow) (cell req : String) :
    ((mkService row).codes.length ≤ 1
      ∧ (∀ x ∈ (mkService row).codes, x = row.reasonCd.pyStrip)
      ∧ (mkService row).remarks.length ≤ 1
      ∧ (∀ x ∈ (mkService row).remarks, x = row.remarkCodes.pyStrip))
  ∧ (hasCodes ((mkService row).codes ++ (mkService row).remarks)
        ["N408", "PR96"] false = true ↔
      ((row.reasonCd.pyStrip = "N408" ∧ row.remarkCodes.pyStrip = "PR96")
        ∨ (row.reasonCd.pyStrip = "PR96" ∧ row.remarkCodes.pyStrip = "N408")))
  ∧ ((cell.pyStrip.pyContainsChar ' ' || cell.pyStrip.pyContainsChar ',') = true →
      (req.pyContainsChar ' ' || req.pyContainsChar ',') = false →
      hasCodes (reasonCodesOf cell) [req] false = false
        ∧ hasCodes (reasonCodesOf cell) [req] true = false) := by
  refine ⟨⟨?_, ?_, ?_, ?_⟩, ?_, ?_⟩
  · by_cases h : row.reasonCd.pyStrip = "" <;> simp [mkService, reasonCodesOf, h]
  · intro x hx
    exact (mem_reasonCodesOf.mp hx).2
  · by_cases h : row.remarkCodes.pyStrip = "" <;> simp [mkService, reasonCodesOf, h]
  · intro x hx
    exact (mem_reasonCodesOf.mp hx).2
  · have hl : (mkService row).codes ++ (mkService row).remarks
        = reasonCodesOf row.reasonCd ++ reasonCodesOf row.remarkCodes := rfl
    rw [hl]
    simp [hasCodes, List.mem_append, mem_reasonCodesOf]
    constructor
    · rintro ⟨⟨_, hN⟩ | ⟨_, hN⟩, ⟨_, hP⟩ | ⟨_, hP⟩⟩
      · exact absurd (hN.trans hP.symm) (by decide)
      · exact Or.inl ⟨hN.symm, hP.symm⟩
      · exact Or.inr ⟨hP.symm, hN.symm⟩
      · exact absurd (hN.trans hP.symm) (by decide)
    · rintro (⟨ha, hb⟩ | ⟨ha, hb⟩)
      · exact ⟨Or.inl ⟨by rw [ha]; decide, ha.symm⟩, Or.inr ⟨by rw [hb]; decide, hb.symm⟩⟩
      · exact ⟨Or.inr ⟨by rw [hb]; decide, hb.symm⟩, Or.inl ⟨by rw [ha]; decide, ha.symm⟩⟩
  · intro hcell hreq
    have hne : req ≠ cell.pyStrip := by
      intro h
      rw [h] at hreq
      rw [hreq] at hcell
      cases hcell
    have hnotmem : req ∉ reasonCodesOf cell := by
      rw [mem_reasonCodesOf]
      rintro ⟨_, h⟩
      exact hne h
    constructor <;> simp [hasCodes, List.elem_eq_mem, hnotmem]

/-- C10 witness fixture: distinct cells each holding exactly one code. -/
def rowW10 : InputRow := { reasonCd := "N408", remarkCodes := "PR96" }

/-- C10 witness: the two-cell service satisfies the N408+PR96 requirement,
while a single cell "N408 PR96" satisfies no single-code requirement. -/
theorem c10_code_cells_witness :
    hasCodes ((mkService rowW10).codes ++ (mkService rowW10).remarks)
      ["N408", "PR96"] false = true
  ∧ hasCodes (reasonCodesOf "N408 PR96") ["N408"] false = false
  ∧ hasCodes (reasonCodesOf "N408 PR96") ["N408"] true = false := by
  refine ⟨?_, ?_, ?_⟩
  · exact ((c10_code_cells rowW10 "" "").2.1).mpr (Or.inl ⟨by decide, by decide⟩)
  · exact ((c10_code_cells rowW10 "N408 PR96" "N408").2.2 (by decide) (by decide)).1
  · exact ((c10_code_cells rowW10 "N408 PR96" "N408").2.2 (by decide) (by decide)).2

theorem selectMax_aux {α : Type} (f : α → Nat) :
    ∀ (l : List α) (c : α),
      ∃ m, l.foldl (fun acc x =>
          match acc with
          | none => some x
          | some c => if f c < f x then some x else some c) (some c) = some m
        ∧ (m ∈ l ∨ m = c) ∧ f c ≤ f m ∧ ∀ y ∈ l, f y ≤ f m := by
  intro l
  induction l with
  | nil =>
      intro c
      exact ⟨c, rfl, Or.inr rfl, le_refl _, by simp⟩
  | cons x xs ih =>
      intro c
      by_cases h : f c < f x
      · obtain ⟨m, hfold, hmem, hle, hall⟩ := ih x
        refine ⟨m, by simpa [h] using hfold, ?_, le_trans (le_of_lt h) hle, ?_⟩
        · rcases hmem with hm | rfl
          · exact Or.inl (List.mem_cons_of_mem _ hm)
          · exact Or.inl (List.mem_cons_self _ _)
        · intro y hy
          rcases List.mem_cons.mp hy with rfl | hy'
          · exact hle
          · exact hall y hy'
      · obtain ⟨m, hfold, hmem, hle, hall⟩ := ih c
        refine ⟨m, by simpa [h] using hfold, ?_, hle, ?_⟩
        · rcases hmem with hm | rfl
          · exact Or.inl (List.mem_cons_of_mem _ hm)
          · exact Or.inr rfl
        · intro y hy
          rcases List.mem_cons.mp hy with rfl | hy'
          · exact le_trans (le_of_not_lt h) hle
          · exact hall y hy'

theorem selectMax_nil_iff {α : Type} (f : α → Nat) (l : List α) :
    selectMax f l = none ↔ l = [] := by
  cases l with
  | nil => simp [selectMax]
  | cons x xs =>
      obtain ⟨m, hfold, _, _, _⟩ := selectMax_aux f xs x
      constructor
      · intro h
        unfold selectMax at h
        rw [List.foldl_cons] at h
        rw [show (match (none : Option α) with
            | none => some x
            | some c => if f c < f x then some x else some c) = some x from rfl] at h
        rw [hfold] at h
        cases h
      · intro h
        cases h

theorem selectMax_some {α : Type} (f : α → Nat) (l : List α) (m : α)
    (h : selectMax f l = some m) : m ∈ l ∧ ∀ y ∈ l, f y ≤ f m := by
  cases l with
  | nil => cases h
  | cons x xs =>
      obtain ⟨m', hfold, hmem, hle, hall⟩ := selectMax_aux f xs x
      have hsel : selectMax f (x :: xs) = some m' := by
        unfold selectMax
        rw [List.foldl_cons]
        exact hfold
      rw [hsel] at h
      injection h with h'
      subst h'
      refine ⟨?_, ?_⟩
      · rcases hmem with hm | rfl
        · exact List.mem_cons_of_mem _ hm
        · exact List.mem_cons_self _ _
      · intro y hy
        rcases List.mem_cons.mp hy with rfl | hy'
        · exact hle
        · exact hall y hy'

theorem mem_sortDescByEncs {x : PaymentInfo} {l : List PaymentInfo} :
    x ∈ sortDescByEncs l ↔ x ∈ l :=
  (List.mergeSort_perm l _).mem_iff

theorem mem_sortAscByEncs {x : EncounterInfo} {l : List EncounterInfo} :
    x ∈ sortAscByEncs l ↔ x ∈ l :=
  (List.mergeSort_perm l _).mem_iff

theorem sorted_sortDescByEncs (l : List PaymentInfo) :
    (sortDescByEncs l).Pairwise
      (fun a b => b.encsToCheckCount ≤ a.encsToCheckCount) := by
  have h := @List.sorted_mergeSort PaymentInfo
    (fun a b => b.encsToCheckCount ≤ a.encsToCheckCount)
    (by intro a b c hab hbc; simp only [decide_eq_true_eq] at *; omega)
    (by intro a b; simp only [Bool.or_eq_true, decide_eq_true_eq]; omega) l
  exact h.imp (by intro a b hh; simpa using hh)

theorem sorted_sortAscByEncs (l : List EncounterInfo) :
    (sortAscByEncs l).Pairwise
      (fun a b => a.encsToCheckCount ≤ b.encsToCheckCount) := by
  have h := @List.sorted_mergeSort EncounterInfo
    (fun a b => a.encsToCheckCount ≤ b.encsToCheckCount)
    (by intro a b c hab hbc; simp only [decide_eq_true_eq] at *; omega)
    (by intro a b; simp only [Bool.or_eq_true, decide_eq_true_eq]; omega) l
  exact h.imp (by intro a b hh; simpa using hh)

theorem mem_mixedPostNoPlasUnsorted {d : List (String × Eft)} {x : PaymentInfo} :
    x ∈ mixedPostNoPlasUnsorted d ↔
      ∃ eftNum eft, (eftNum, eft) ∈ d ∧ eft.isSplit = false ∧
        ∃ pk payment, (pk, payment) ∈ eft.payments ∧ payment.status = "Mixed Post" ∧
          paymentNoPlas payment = true ∧ x = mkPaymentInfo eftNum payment := by
  unfold mixedPostNoPlasUnsorted mixedPostPayments
  simp [List.mem_flatMap, List.mem_filter, List.mem_map]
  constructor
  · rintro ⟨a, b, ⟨⟨a1, b1, ⟨hd, hsplit⟩, ⟨⟨pk, hpmem⟩, hst⟩, rfl⟩, hnp⟩, rfl⟩
    exact ⟨a1, b1, hd, hsplit, pk, b, hpmem, hst, hnp, rfl⟩
  · rintro ⟨en, ef, hd, hsplit, pk, pay, hpmem, hst, hnp, rfl⟩
    exact ⟨en, pay, ⟨⟨en, ef, ⟨hd, hsplit⟩, ⟨⟨pk, hpmem⟩, hst⟩, rfl⟩, hnp⟩, rfl⟩

theorem mem_mixedPostL6OnlyUnsorted {d : List (String × Eft)} {x : PaymentInfo} :
    x ∈ mixedPostL6OnlyUnsorted d ↔
      ∃ eftNum eft, (eftNum, eft) ∈ d ∧ eft.isSplit = false ∧
        ∃ pk payment, (pk, payment) ∈ eft.payments ∧ payment.status = "Mixed Post" ∧
          paymentOnlyL6 payment = true ∧ x = mkPaymentInfo eftNum payment := by
  unfold mixedPostL6OnlyUnsorted mixedPostPayments
  simp [List.mem_flatMap, List.mem_filter, List.mem_map]
  constructor
  · rintro ⟨a, b, ⟨⟨a1, b1, ⟨hd, hsplit⟩, ⟨⟨pk, hpmem⟩, hst⟩, rfl⟩, hnp⟩, rfl⟩
    exact ⟨a1, b1, hd, hsplit, pk, b, hpmem, hst, hnp, rfl⟩
  · rintro ⟨en, ef, hd, hsplit, pk, pay, hpmem, hst, hnp, rfl⟩
    exact ⟨en, pay, ⟨⟨en, ef, ⟨hd, hsplit⟩, ⟨⟨pk, hpmem⟩, hst⟩, rfl⟩, hnp⟩, rfl⟩

theorem mem_chargeMismatchUnsorted {d : List (String × Eft)} {x : EncounterInfo} :
    x ∈ chargeMismatchUnsorted d ↔
      ∃ eftNum eft, (eftNum, eft) ∈ d ∧ eft.isSplit = false ∧
        ∃ pk payment, (pk, payment) ∈ eft.payments ∧ payment.status = "Mixed Post" ∧
          ∃ ek encData, (ek, encData) ∈ payment.encsToCheck ∧
            hasChgMismatch encData = true ∧
            x = mkEncounterInfo (mkPaymentInfo eftNum payment) ek encData := by
  unfold chargeMismatchUnsorted mixedPostPayments
  simp [List.mem_flatMap, List.mem_filter, List.mem_map]
  constructor
  · rintro ⟨a, b, ⟨a1, b1, ⟨hd, hsplit⟩, ⟨⟨pk, hpmem⟩, hst⟩, rfl⟩,
      ek, ecd, ⟨hemem, hchg⟩, rfl⟩
    exact ⟨a1, b1, hd, hsplit, pk, b, hpmem, hst, ek, ecd, hemem, hchg, rfl⟩
  · rintro ⟨en, ef, hd, hsplit, pk, pay, hpmem, hst, ek, ecd, hemem, hchg, rfl⟩
    exact ⟨en, pay, ⟨en, ef, ⟨hd, hsplit⟩, ⟨⟨pk, hpmem⟩, hst⟩, rfl⟩,
      ek, ecd, ⟨hemem, hchg⟩, rfl⟩

theorem mem_maxPaymentCandidates {d : List (String × Eft)} {m : MaxPaymentInfo} :
    m ∈ maxPaymentCandidates d ↔
      ∃ eftNum eft, (eftNum, eft) ∈ d ∧ eft.isSplit = false ∧
        ∃ pk payment, (pk, payment) ∈ eft.payments ∧
          0 < payment.encsToCheck.length ∧ m = mkMaxPaymentInfo eftNum payment := by
  unfold maxPaymentCandidates
  simp only [List.mem_map, List.mem_filter, List.mem_flatMap, Prod.exists,
    Bool.not_eq_true', decide_eq_true_eq]
  constructor
  · rintro ⟨a, b, ⟨hd, hsplit⟩, pk, pay, ⟨hpmem, hpos⟩, rfl⟩
    exact ⟨a, b, hd, hsplit, pk, pay, hpmem, hpos, rfl⟩
  · rintro ⟨en, ef, hd, hsplit, pk, pay, hpmem, hpos, rfl⟩
    exact ⟨en, ef, ⟨hd, hsplit⟩, pk, pay, ⟨hpmem, hpos⟩, rfl⟩

theorem mem_maxEftCandidates {d : List (String × Eft)} {m : EftInfo} :
    m ∈ maxEftCandidates d ↔
      ∃ eftNum eft, (eftNum, eft) ∈ d ∧ eft.isSplit = true ∧
        0 < eftTotalEncsToCheck eft ∧ m = mkEftInfo eftNum eft := by
  unfold maxEftCandidates
  simp [List.mem_filterMap, List.mem_filter]
  constructor
  · rintro ⟨a, b, ⟨hd, hsplit⟩, hpos, rfl⟩
    exact ⟨a, b, hd, hsplit, hpos, rfl⟩
  · rintro ⟨en, ef, hd, hsplit, hpos, rfl⟩
    exact ⟨en, ef, ⟨hd, hsplit⟩, hpos, rfl⟩

/-- C9 counterexample fixtures: a *split* EFT holding a Mixed-Post payment
with no PLAs and a charge-mismatch encounter. -/
def encCheck9 : EncCheck :=
  { num := "1001", clmStatus := "1", types := [("chg_mismatch_cpt4", ["99213"])] }

def payMixed9 : Payment :=
  { practice_id := "207008", num := "CHK9", status := "Mixed Post",
    encsToCheck := [("1001_1", encCheck9)] }

def payOther9 : Payment :=
  { practice_id := "207008", num := "CHK10", status := "Immediate Post" }

def eftSplit9 : Eft :=
  { eft_num := "EFT9", isSplit := true,
    payments := [("207008_CHK9", payMixed9), ("207008_CHK10", payOther9)] }

def data9 : List (String × Eft) := [("EFT9", eftSplit9)]

/-- C9 counterexample: the scan loop only visits EFTs that are *not* split
(`if not eft.get("is_split")`), so a qualifying Mixed-Post/no-PLA payment
and its `chg_mismatch_cpt4` encounter inside a split EFT appear in none of
the analytics lists, refuting the claim's "every EFT in the data object". -/
theorem c9_counterexample :
    (analyzeMixedPostPayments data9).mixedPostNoPlas = []
  ∧ (analyzeMixedPostPayments data9).chargeMismatchCpt4Encounters = []
  ∧ payMixed9.status = "Mixed Post"
  ∧ paymentNoPlas payMixed9 = true
  ∧ hasChgMismatch encCheck9 = true
  ∧ ("207008_CHK9", payMixed9) ∈ eftSplit9.payments
  ∧ ("EFT9", eftSplit9) ∈ data9 := by
  refine ⟨?_, ?_, rfl, by decide, by decide, by decide, by decide⟩
  · show sortDescByEncs (mixedPostNoPlasUnsorted data9) = []
    rw [show mixedPostNoPlasUnsorted data9 = [] from by decide]
    simp [sortDescByEncs]
  · show sortAscByEncs (chargeMismatchUnsorted data9) = []
    rw [show chargeMismatchUnsorted data9 = [] from by decide]
    simp [sortAscByEncs]

/-- C9 (amended): the analytics scan covers the *not-split* EFTs for the
three lists — Mixed-Post payments with zero PLAs and with only-L6 PLAs
(both sorted by descending encounters-to-check count) and the
`chg_mismatch_cpt4` encounters of Mixed-Post payments (sorted ascending) —
while the extremal records cover, over the whole data object, the single
payment with the maximum encounters-to-check count among not-split EFTs and
the single EFT with the maximum total among split EFTs (first maximum wins
ties; `None` exactly when no positive count exists). -/
theorem c9_analytics_scan (d : List (String × Eft)) :
    ((analyzeMixedPostPayments d).mixedPostNoPlas.Pairwise
        (fun a b => b.encsToCheckCount ≤ a.encsToCheckCount)
      ∧ ∀ x, x ∈ (analyzeMixedPostPayments d).mixedPostNoPlas ↔
          ∃ eftNum eft, (eftNum, eft) ∈ d ∧ eft.isSplit = false ∧
            ∃ pk payment, (pk, payment) ∈ eft.payments ∧
              payment.status = "Mixed Post" ∧ paymentNoPlas payment = true ∧
              x = mkPaymentInfo eftNum payment)
  ∧ ((analyzeMixedPostPayments d).mixedPostL6Only.Pairwise
        (fun a b => b.encsToCheckCount ≤ a.encsToCheckCount)
      ∧ ∀ x, x ∈ (analyzeMixedPostPayments d).mixedPostL6Only ↔
          ∃ eftNum eft, (eftNum, eft) ∈ d ∧ eft.isSplit = false ∧
            ∃ pk payment, (pk, payment) ∈ eft.payments ∧
              payment.status = "Mixed Post" ∧ paymentOnlyL6 payment = true ∧
              x = mkPaymentInfo eftNum payment)
  ∧ ((analyzeMixedPostPayments d).chargeMismatchCpt4Encounters.Pairwise
        (fun a b => a.encsToCheckCount ≤ b.encsToCheckCount)
      ∧ ∀ x, x ∈ (analyzeMixedPostPayments d).chargeMismatchCpt4Encounters ↔
          ∃ eftNum eft, (eftNum, eft) ∈ d ∧ eft.isSplit = false ∧
            ∃ pk payment, (pk, payment) ∈ eft.payments ∧
              payment.status = "Mixed Post" ∧
              ∃ ek encData, (ek, encData) ∈ payment.encsToCheck ∧
                hasChgMismatch encData = true ∧
                x = mkEncounterInfo (mkPaymentInfo eftNum payment) ek encData)
  ∧ (((analyzeMixedPostPayments d).maxNotSplitSinglePayment = none ↔
        ∀ eftNum eft, (eftNum, eft) ∈ d → eft.isSplit = false →
          ∀ pk payment, (pk, payment) ∈ eft.payments →
            payment.encsToCheck.length = 0)
      ∧ ∀ m, (analyzeMixedPostPayments d).maxNotSplitSinglePayment = some m →
          (∃ eftNum eft, (eftNum, eft) ∈ d ∧ eft.isSplit = false ∧
            ∃ pk payment, (pk, payment) ∈ eft.payments ∧
              0 < payment.encsToCheck.length ∧ m = mkMaxPaymentInfo eftNum payment)
          ∧ ∀ eftNum eft, (eftNum, eft) ∈ d → eft.isSplit = false →
              ∀ pk payment, (pk, payment) ∈ eft.payments →
                payment.encsToCheck.length ≤ m.encsToCheckCount)
  ∧ (((analyzeMixedPostPayments d).maxSplitSingleEft = none ↔
        ∀ eftNum eft, (eftNum, eft) ∈ d → eft.isSplit = true →
          eftTotalEncsToCheck eft = 0)
      ∧ ∀ m, (analyzeMixedPostPayments d).maxSplitSingleEft = some m →
          (∃ eftNum eft, (eftNum, eft) ∈ d ∧ eft.isSplit = true ∧
            0 < eftTotalEncsToCheck eft ∧ m = mkEftInfo eftNum eft)
          ∧ ∀ eftNum eft, (eftNum, eft) ∈ d → eft.isSplit = true →
              eftTotalEncsToCheck eft ≤ m.totalEncsToCheck) := by
  refine ⟨⟨sorted_sortDescByEncs _, ?_⟩, ⟨sorted_sortDescByEncs _, ?_⟩,
    ⟨sorted_sortAscByEncs _, ?_⟩, ⟨?_, ?_⟩, ⟨?_, ?_⟩⟩
  · intro x
    rw [show (analyzeMixedPostPayments d).mixedPostNoPlas
        = sortDescByEncs (mixedPostNoPlasUnsorted d) from rfl,
      mem_sortDescByEncs, mem_mixedPostNoPlasUnsorted]
  · intro x
    rw [show (analyzeMixedPostPayments d).mixedPostL6Only
        = sortDescByEncs (mixedPostL6OnlyUnsorted d) from rfl,
      mem_sortDescByEncs, mem_mixedPostL6OnlyUnsorted]
  · intro x
    rw [show (analyzeMixedPostPayments d).chargeMismatchCpt4Encounters
        = sortAscByEncs (chargeMismatchUnsorted d) from rfl,
      mem_sortAscByEncs, mem_chargeMismatchUnsorted]
  · constructor
    · intro h en ef hd hsplit pk pay hpmem
      by_contra hne
      have hpos : 0 < pay.encsToCheck.length := Nat.pos_of_ne_zero hne
      have hmem : mkMaxPaymentInfo en pay ∈ maxPaymentCandidates d :=
        mem_maxPaymentCandidates.mpr ⟨en, ef, hd, hsplit, pk, pay, hpmem, hpos, rfl⟩
      have h' : selectMax (fun m : MaxPaymentInfo => m.encsToCheckCount)
          (maxPaymentCandidates d) = none := h
      have hnil : maxPaymentCandidates d = [] :=
        (selectMax_nil_iff (fun m => m.encsToCheckCount) (maxPaymentCandidates d)).mp h'
      rw [hnil] at hmem
      cases hmem
    · intro hall
      apply (selectMax_nil_iff (fun m => m.encsToCheckCount) (maxPaymentCandidates d)).mpr
      cases hc : maxPaymentCandidates d with
      | nil => rfl
      | cons y ys =>
          have hy : y ∈ maxPaymentCandidates d := by
            rw [hc]; exact List.mem_cons_self _ _
          obtain ⟨en, ef, hd, hsplit, pk, pay, hpmem, hpos, rfl⟩ :=
            mem_maxPaymentCandidates.mp hy
          have := hall en ef hd hsplit pk pay hpmem
          omega
  · intro m hm
    have hm' : selectMax (fun m : MaxPaymentInfo => m.encsToCheckCount)
        (maxPaymentCandidates d) = some m := hm
    obtain ⟨hmem, hall⟩ :=
      selectMax_some (fun m => m.encsToCheckCount) (maxPaymentCandidates d) m hm'
    refine ⟨mem_maxPaymentCandidates.mp hmem, ?_⟩
    intro en ef hd hsplit pk pay hpmem
    by_cases hpos : 0 < pay.encsToCheck.length
    · exact hall _ (mem_maxPaymentCandidates.mpr
        ⟨en, ef, hd, hsplit, pk, pay, hpmem, hpos, rfl⟩)
    · omega
  · constructor
    · intro h en ef hd hsplit
      by_contra hne
      have hpos : 0 < eftTotalEncsToCheck ef := Nat.pos_of_ne_zero hne
      have hmem : mkEftInfo en ef ∈ maxEftCandidates d :=
        mem_maxEftCandidates.mpr ⟨en, ef, hd, hsplit, hpos, rfl⟩
      have h' : selectMax (fun m : EftInfo => m.totalEncsToCheck)
          (maxEftCandidates d) = none := h
      have hnil : maxEftCandidates d = [] :=
        (selectMax_nil_iff (fun m => m.totalEncsToCheck) (maxEftCandidates d)).mp h'
      rw [hnil] at hmem
      cases hmem
    · intro hall
      apply (selectMax_nil_iff (fun m => m.totalEncsToCheck) (maxEftCandidates d)).mpr
      cases hc : maxEftCandidates d with
      | nil => rfl
      | cons y ys =>
          have hy : y ∈ maxEftCandidates d := by
            rw [hc]; exact List.mem_cons_self _ _
          obtain ⟨en, ef, hd, hsplit, hpos, rfl⟩ := mem_maxEftCandidates.mp hy
          have := hall en ef hd hsplit
          omega
  · intro m hm
    have hm' : selectMax (fun m : EftInfo => m.totalEncsToCheck)
        (maxEftCandidates d) = some m := hm
    obtain ⟨hmem, hall⟩ :=
      selectMax_some (fun m => m.totalEncsToCheck) (maxEftCandidates d) m hm'
    refine ⟨mem_maxEftCandidates.mp hmem, ?_⟩
    intro en ef hd hsplit
    by_cases hpos : 0 < eftTotalEncsToCheck ef
    · exact hall _ (mem_maxEftCandidates.mpr ⟨en, ef, hd, hsplit, hpos, rfl⟩)
    · omega

/-- C9 witness fixtures: a not-split EFT with one Mixed-Post no-PLA
payment. -/
def encCheckW9 : EncCheck :=
  { num := "1001", clmStatus := "1", types := [("other_not_posted", ["99213"])] }

def payW9 : Payment :=
  { practice_id := "207008", num := "CHKW", status := "Mixed Post",
    encsToCheck := [("1001_1", encCheckW9)] }

def eftW9 : Eft :=
  { eft_num := "EFTW", isSplit := false, payments := [("207008_CHKW", payW9)] }

def dataW9 : List (String × Eft) := [("EFTW", eftW9)]

/-- C9 witness: the qualifying payment of a not-split EFT shows up in the
no-PLA Mixed-Post list. -/
theorem c9_analytics_scan_witness :
    mkPaymentInfo "EFTW" payW9 ∈ (analyzeMixedPostPayments dataW9).mixedPostNoPlas :=
  ((c9_analytics_scan dataW9).1.2 _).mpr
    ⟨"EFTW", eftW9, by decide, by decide, "207008_CHKW", payW9,
      by decide, by decide, by decide, rfl⟩
